import Mathlib

/-!
Verification of the openCodex format-translating proxy.

The development shallowly embeds the core request pipeline of the repository:
the `V1ResponsesPlugin` transform (`transformRequest`, `normalizeContent`),
the forwarding handlers (`handle`, `handleNonStreamingRequest`,
`handleStreamingRequest`, modelled over an abstract fetch outcome), and the
router's health aggregate (`checkUpstreamHealth`).

Request bodies are untyped JSON documents at runtime (the TypeScript casts are
unchecked), so they are modelled by a JSON-like value type `JVal` together with
JavaScript truthiness, property access (which throws a `TypeError` on `null`),
and the `||` operator. JavaScript exceptions are modelled by `Except String`.
-/

namespace OpenCodex

/-- A runtime JSON value, as produced by the body parser: `null`, booleans,
numbers (modelled as rationals), strings, arrays and objects. Object keys are
assumed unique, as they are in a JavaScript object. -/
inductive JVal where
  | jnull
  | jbool (b : Bool)
  | jnum (q : ℚ)
  | jstr (s : String)
  | jarr (elems : List JVal)
  | jobj (fields : List (String × JVal))

/-- JavaScript truthiness of a value: `null`, `false`, `0` and `""` are falsy;
every array and object is truthy. (`NaN` has no counterpart among rationals.) -/
def JVal.truthy : JVal → Bool
  | .jnull => false
  | .jbool b => b
  | .jnum q => decide (q ≠ 0)
  | .jstr s => decide (s ≠ "")
  | .jarr _ => true
  | .jobj _ => true

/-- Truthiness of a possibly-`undefined` value (`none` = `undefined`, falsy). -/
def optTruthy : Option JVal → Bool
  | some v => v.truthy
  | none => false

/-- First-match key lookup in an object's field list (object keys are unique). -/
def jlookup (fields : List (String × JVal)) (k : String) : Option JVal :=
  (fields.find? (fun p => p.1 = k)).map (fun p => p.2)

/-- JavaScript property access `v[k]`: an object yields its field (or
`undefined`), any non-null non-object yields `undefined`, and access on `null`
throws a `TypeError`. -/
def jsGetField : JVal → String → Except String (Option JVal)
  | .jnull, k => .error ("Cannot read properties of null (reading " ++ k ++ ")")
  | .jobj fields, k => .ok (jlookup fields k)
  | _, _ => .ok none

/-- JavaScript `a || b` over a possibly-`undefined` left operand: the left value
if truthy, otherwise the right value. This is the operator the source uses for
`original.stream || false` and `item.content || item.text`. -/
def jsOrD (a : Option JVal) (b : JVal) : JVal :=
  match a with
  | some v => if v.truthy then v else b
  | none => b

/-- Escape of `"` and `\` inside a JSON string literal (control-character
escapes are not needed by any value this development evaluates). -/
def jsonEscape (s : String) : String :=
  s.foldl (fun acc c =>
    if c = '"' then acc ++ "\\\""
    else if c = '\\' then acc ++ "\\\\"
    else acc.push c) ""

/-- Decimal rendering of a number for the JSON fallback. The source relies on
the JavaScript engine's double-to-string algorithm; this model renders integral
values exactly (the only number shapes any claim evaluates) and other rationals
as `num/den`. -/
def jsonNumRepr (q : ℚ) : String :=
  if q.den = 1 then toString q.num else toString q.num ++ "/" ++ toString q.den

mutual
/-- `JSON.stringify`, the re-serialization fallback of `normalizeContent`. -/
def jsonStringify : JVal → String
  | .jnull => "null"
  | .jbool true => "true"
  | .jbool false => "false"
  | .jnum q => jsonNumRepr q
  | .jstr s => "\"" ++ jsonEscape s ++ "\""
  | .jarr elems => "[" ++ jsonStringifyList elems ++ "]"
  | .jobj fields => "\x7b" ++ jsonStringifyFields fields ++ "\x7d"

/-- Comma-separated serialization of an array's elements. -/
def jsonStringifyList : List JVal → String
  | [] => ""
  | [v] => jsonStringify v
  | v :: rest => jsonStringify v ++ "," ++ jsonStringifyList rest

/-- Comma-separated serialization of an object's fields. -/
def jsonStringifyFields : List (String × JVal) → String
  | [] => ""
  | [(k, v)] => "\"" ++ jsonEscape k ++ "\":" ++ jsonStringify v
  | (k, v) :: rest =>
      "\"" ++ jsonEscape k ++ "\":" ++ jsonStringify v ++ "," ++ jsonStringifyFields rest
end

/-- `typeof v === 'string'`. -/
def isStringV : JVal → Bool
  | .jstr _ => true
  | _ => false

/-- The string payload of a string value (only applied under `isStringV`). -/
def strOf : JVal → String
  | .jstr s => s
  | _ => ""

/-- The scan `content.every(item => item.type && (item.text !== undefined))`:
`every` stops at the first failing element, and reading `.type` off a `null`
element throws a `TypeError` exactly as in the source. -/
def scanTypedBlocks : List JVal → Except String Bool
  | [] => .ok true
  | item :: rest =>
      match jsGetField item "type" with
      | .error e => .error e
      | .ok ty =>
          if optTruthy ty then
            match jsGetField item "text" with
            | .error e => .error e
            | .ok txt => if txt.isSome then scanTypedBlocks rest else .ok false
          else .ok false

/-- The per-element rewrite inside the typed-block branch: an `input_text`
block becomes `{type: "text", text: item.text}`; anything else passes through.
The `.jnull` default is unreachable: the scan guarantees `.text` is present. -/
def mapTypedBlock (item : JVal) : JVal :=
  match jsGetField item "type" with
  | .ok (some (.jstr "input_text")) =>
      match jsGetField item "text" with
      | .ok (some t) => .jobj [("type", .jstr "text"), ("text", t)]
      | _ => .jobj [("type", .jstr "text"), ("text", .jnull)]
  | _ => item

/-- `V1ResponsesPlugin.normalizeContent`: strings pass through; an all-string
array is joined with the two-character separator `\x5cn` (the source's `'\\n'`
literal); an array of typed blocks is rewritten element-wise; any other array
passes through; any other value is re-serialized with `JSON.stringify`. The
typed-block scan can throw on a `null` element, hence the `Except`. -/
def normalizeContent (content : JVal) : Except String JVal :=
  match content with
  | .jstr s => .ok (.jstr s)
  | .jarr elems =>
      if elems.all isStringV then
        .ok (.jstr (String.intercalate "\\n" (elems.map strOf)))
      else
        match scanTypedBlocks elems with
        | .error e => .error e
        | .ok true => .ok (.jarr (elems.map mapTypedBlock))
        | .ok false => .ok (.jarr elems)
  | v => .ok (.jstr (jsonStringify v))

/-- The relevant fields of an inbound `/v1/responses` body
(`OpenAIResponsesFormat` after the unchecked cast): each field is an arbitrary
runtime value or absent (`none` = the property is `undefined`). -/
structure InboundRequest where
  model : Option JVal := none
  instructions : Option JVal := none
  input : Option JVal := none
  stream : Option JVal := none
  tools : Option JVal := none
  temperature : Option JVal := none
  max_tokens : Option JVal := none
  parallel_tool_calls : Option JVal := none

/-- One element of the outbound `messages` list: `{role, content}`. -/
structure ChatMessage where
  role : JVal
  content : JVal

/-- The outbound `/v1/chat/completions` body built by `transformRequest`
(`OpenAIChatFormat`): `tools` and `parallel_tool_calls` are only present when
the transform assigned them. -/
structure OpenAIChatFormat where
  model : Option JVal
  messages : List ChatMessage
  temperature : JVal
  max_tokens : JVal
  stream : JVal
  tools : Option JVal
  parallel_tool_calls : Option JVal

/-- Step 2 of the transform: `if (original.instructions)` pushes
`{role: 'system', content: original.instructions}` — a truthiness test. -/
def systemMessages (original : InboundRequest) : List ChatMessage :=
  match original.instructions with
  | some v => if v.truthy then [⟨.jstr "system", v⟩] else []
  | none => []

/-- The items the input loop ranges over:
`if (original.input && Array.isArray(original.input))` — an array is always
truthy, so the loop runs exactly when `input` is present and an array. -/
def inputItems (original : InboundRequest) : List JVal :=
  match original.input with
  | some (.jarr elems) => elems
  | _ => []

/-- One iteration of the input loop:
`if (item.role && (item.content || item.text))` pushes
`{role: item.role, content: normalizeContent(item.content || item.text)}`.
Reading `.role` off a `null` item throws; a falsy `role`, or falsy
`content` and `text`, skips the item (`.ok none`). -/
def processItem (item : JVal) : Except String (Option ChatMessage) :=
  match jsGetField item "role" with
  | .error e => .error e
  | .ok roleOpt =>
      match roleOpt with
      | some r =>
          if r.truthy then
            match jsGetField item "content", jsGetField item "text" with
            | .ok c, .ok t =>
                match (if optTruthy c then c else t) with
                | some v =>
                    if v.truthy then
                      match normalizeContent v with
                      | .error e => .error e
                      | .ok nc => .ok (some ⟨r, nc⟩)
                    else .ok none
                | none => .ok none
            | .error e, _ => .error e
            | _, .error e => .error e
          else .ok none
      | none => .ok none

/-- The input loop itself: items processed left to right, the first thrown
`TypeError` aborting the whole transform. -/
def processItems : List JVal → Except String (List ChatMessage)
  | [] => .ok []
  | item :: rest =>
      match processItem item with
      | .error e => .error e
      | .ok o =>
          match processItems rest with
          | .error e => .error e
          | .ok msgs =>
              match o with
              | some m => .ok (m :: msgs)
              | none => .ok msgs

/-- The guard `original.tools && original.tools.length > 0`: `.length` is a
number on arrays, strings, or an object with a numeric `length` field, and
`undefined > 0` is false otherwise. (JavaScript's numeric coercion of an exotic
non-numeric `length` value is simplified to false.) -/
def jsLengthPos : JVal → Bool
  | .jarr elems => decide (0 < elems.length)
  | .jstr s => decide (0 < s.length)
  | .jobj fields =>
      match jlookup fields "length" with
      | some (.jnum q) => decide (0 < q)
      | _ => false
  | _ => false

/-- `V1ResponsesPlugin.transformRequest`: defaults
`temperature = 0.7`, `max_tokens = -1`, `stream = original.stream || false`;
a system message for truthy `instructions`; the input loop; `tools` copied when
non-empty; and `!== undefined` overrides for `temperature`, `max_tokens` and
`parallel_tool_calls`. The input loop can throw a `TypeError`, hence `Except`. -/
def transformRequest (original : InboundRequest) : Except String OpenAIChatFormat :=
  match processItems (inputItems original) with
  | .error e => .error e
  | .ok inputMsgs =>
      .ok {
        model := original.model
        messages := systemMessages original ++ inputMsgs
        temperature := (original.temperature).getD (.jnum ((7 : ℚ)/10))
        max_tokens := (original.max_tokens).getD (.jnum (-1))
        stream := jsOrD original.stream (.jbool false)
        tools :=
          match original.tools with
          | some v => if v.truthy && jsLengthPos v then some v else none
          | none => none
        parallel_tool_calls := original.parallel_tool_calls
      }

/-- Whether one input item is processed by the loop without a thrown
exception (its `.role` read succeeds and, when reached, its content
normalization succeeds). -/
def itemOk (item : JVal) : Bool :=
  match processItem item with
  | .ok _ => true
  | .error _ => false

/-- The message an input item contributes to the outbound list (`none` when
the item is skipped; also `none` on the thrown path, which `itemOk` rules
out). -/
def itemMessage (item : JVal) : Option ChatMessage :=
  match processItem item with
  | .ok o => o
  | .error _ => none

/-- Follows the spec's words: the nullish-coalescing choice
`item.content ?? item.text` that the claimed transform prescribes. The source
instead computes `item.content || item.text` (see `jsOrD`), which differs on a
falsy non-nullish `content` such as `""`. -/
def specNullishChoice (a b : Option JVal) : Option JVal :=
  match a with
  | some .jnull => b
  | some v => some v
  | none => b

/-- A body whose `instructions` is set — to the empty string — alongside one
well-formed input item. -/
def emptyInstructionsReq : InboundRequest :=
  { instructions := some (.jstr ""),
    input := some (.jarr [.jobj [("role", .jstr "user"), ("content", .jstr "Hello!")]]) }

/-- The spec's own scenario request: instructions plus one user item. -/
def helpfulReq : InboundRequest :=
  { model := some (.jstr "gpt-4"),
    instructions := some (.jstr "You are a helpful assistant."),
    input := some (.jarr [.jobj [("role", .jstr "user"), ("content", .jstr "Hello!")]]) }

/-- The transform of `helpfulReq`. -/
def helpfulOut : OpenAIChatFormat :=
  { model := some (.jstr "gpt-4"),
    messages := [⟨.jstr "system", .jstr "You are a helpful assistant."⟩,
                 ⟨.jstr "user", .jstr "Hello!"⟩],
    temperature := .jnum ((7 : ℚ)/10),
    max_tokens := .jnum (-1),
    stream := .jbool false,
    tools := none,
    parallel_tool_calls := none }

/-- A body exercising the `!== undefined` overrides with falsy and non-boolean
values: `temperature = 0`, `max_tokens = 5`, `parallel_tool_calls = false`,
`stream = "sse"`. -/
def zeroTempReq : InboundRequest :=
  { stream := some (.jstr "sse"),
    temperature := some (.jnum 0),
    max_tokens := some (.jnum 5),
    parallel_tool_calls := some (.jbool false) }

/-- The transform of `zeroTempReq`: every override kept, the truthy `stream`
string kept verbatim by `||`. -/
def zeroTempOut : OpenAIChatFormat :=
  { model := none,
    messages := [],
    temperature := .jnum 0,
    max_tokens := .jnum 5,
    stream := .jstr "sse",
    tools := none,
    parallel_tool_calls := some (.jbool false) }

/-- A thoroughly malformed body that nevertheless takes no throwing path:
a `null` model, a falsy numeric `instructions`, a loose string item, an item
with only a `role`, an item whose `text` is a mixed array (its typed-block
scan stops before the `null` element), a `null` `stream` and a string
`temperature`. -/
def malformedSafeReq : InboundRequest :=
  { model := some .jnull,
    instructions := some (.jnum 0),
    input := some (.jarr
      [.jstr "loose",
       .jobj [("role", .jstr "user")],
       .jobj [("role", .jstr "assistant"), ("text", .jarr [.jnum 1, .jnull])],
       .jbool false]),
    stream := some .jnull,
    temperature := some (.jstr "hot"),
    tools := some (.jarr []) }

/-- Input items exercising both the append and the skip branches of the loop:
a user item with `content`, an item with no `role`, an assistant item with
only `text`, and a bare string item. -/
def mixedItemsReq : InboundRequest :=
  { input := some (.jarr
      [.jobj [("role", .jstr "user"), ("content", .jstr "Hello!")],
       .jobj [("content", .jstr "orphan")],
       .jobj [("role", .jstr "assistant"), ("text", .jstr "Hi")],
       .jstr "loose"]) }

/-- The transform of `mixedItemsReq`: the two role-carrying items survive, in
order; the other two are skipped. -/
def mixedItemsOut : OpenAIChatFormat :=
  { model := none,
    messages := [⟨.jstr "user", .jstr "Hello!"⟩, ⟨.jstr "assistant", .jstr "Hi"⟩],
    temperature := .jnum ((7 : ℚ)/10),
    max_tokens := .jnum (-1),
    stream := .jbool false,
    tools := none,
    parallel_tool_calls := none }

/-- An input item whose `content` is present but empty while `text` is
non-empty: the `||` choice takes `text`, the claimed `??` choice would take
`content`. -/
def emptyContentItem : JVal :=
  .jobj [("role", .jstr "user"), ("content", .jstr ""), ("text", .jstr "hi")]

/-- Outcome of the buffered `fetch` to `<upstream>/chat/completions`: a success
response with a parsed JSON body, a non-success HTTP status with its body text,
or a rejected promise (transport failure) with its error message. -/
inductive FetchOutcome where
  | success (body : JVal)
  | httpError (status : Nat) (bodyText : String)
  | networkError (message : String)

/-- Outcome of the streaming `fetch`: a success response whose body yields the
given chunks, a success response with no body stream, a non-success HTTP
status, or a transport failure (before or during the stream). -/
inductive StreamOutcome where
  | success (chunks : List String)
  | noBody
  | httpError (status : Nat) (bodyText : String)
  | networkError (message : String)

/-- A body written to the caller: `res.send(text)` or `res.json(value)`. -/
inductive ResBody where
  | text (s : String)
  | json (v : JVal)

/-- The status and body written to the original caller. -/
structure HttpResponse where
  status : Nat
  body : ResBody

/-- What the plugin writes back: a single buffered response, or an
`text/event-stream` relay of the given chunks followed by `res.end()`. -/
inductive ResponseOut where
  | buffered (r : HttpResponse)
  | streamed (chunks : List String)

/-- `V1ResponsesPlugin.handleNonStreamingRequest`, over the fetch outcome:
non-ok status is relayed verbatim (`res.status(s).send(text)`), success is
returned as JSON (status 200), and a rejected fetch is caught and answered
with 502 `{error: "Error forwarding request: " + message}`. Every path
returns `true`. -/
def handleNonStreamingRequest : FetchOutcome → ResponseOut × Bool
  | .success body => (.buffered ⟨200, .json body⟩, true)
  | .httpError s t => (.buffered ⟨s, .text t⟩, true)
  | .networkError m =>
      (.buffered ⟨502, .json (.jobj [("error", .jstr ("Error forwarding request: " ++ m))])⟩,
       true)

/-- `V1ResponsesPlugin.handleStreamingRequest`, over the fetch outcome: non-ok
status relayed verbatim; a missing body stream answered with 502; on success
the chunks are relayed in order and the stream closed; a rejection caught and
answered with 502 `{error: "Error streaming response: " + message}`. Every
path returns `true`. -/
def handleStreamingRequest : StreamOutcome → ResponseOut × Bool
  | .success chunks => (.streamed chunks, true)
  | .noBody => (.buffered ⟨502, .json (.jobj [("error", .jstr "No response stream from upstream")])⟩, true)
  | .httpError s t => (.buffered ⟨s, .text t⟩, true)
  | .networkError m =>
      (.buffered ⟨502, .json (.jobj [("error", .jstr ("Error streaming response: " ++ m))])⟩,
       true)

/-- The two fetch outcomes the environment can supply to `handle` (only the
branch the request selects is performed). -/
structure FetchEnv where
  buffered : FetchOutcome
  streaming : StreamOutcome

/-- The 500 envelope built by `handle`'s catch block. -/
def proxyErrorEnvelope (m : String) : HttpResponse :=
  ⟨500, .json (.jobj [("error",
      .jobj [("message", .jstr ("Error handling request: " ++ m)),
             ("type", .jstr "proxy_error")])])⟩

/-- `V1ResponsesPlugin.handle`: transforms the body (an exception there is
caught and answered with the 500 `proxy_error` envelope), then dispatches on
the truthiness of `requestBody.stream` to the streaming or buffered handler.
Every path resolves `true`. -/
def handle (reqBody : InboundRequest) (env : FetchEnv) : ResponseOut × Bool :=
  match transformRequest reqBody with
  | .error m => (.buffered (proxyErrorEnvelope m), true)
  | .ok _ =>
      if optTruthy reqBody.stream then handleStreamingRequest env.streaming
      else handleNonStreamingRequest env.buffered

/-- Outcome of one registered handler's `checkHealth()` promise: a resolved
boolean or a rejection with a message. -/
inductive HealthOutcome where
  | ok (healthy : Bool)
  | thrown (message : String)

/-- Outcome of the bare `GET <upstreamBaseURL><healthCheckPath>` probe:
a response with its `ok` flag, or a rejected fetch. -/
inductive ProbeOutcome where
  | responded (ok : Bool)
  | failed (message : String)

/-- The per-handler wrapper in `checkUpstreamHealth`:
`try return await plugin.checkHealth() catch return false`. -/
def handlerHealth : HealthOutcome → Bool
  | .ok b => b
  | .thrown _ => false

/-- `router.checkUpstreamHealth`: with no registered handlers, one bare probe
decides (`response.ok`, a rejection giving `false`); otherwise every handler's
`checkHealth` is awaited and the aggregate is
`results.some(result => result === true)`. -/
def checkUpstreamHealth (handlers : List HealthOutcome) (probe : ProbeOutcome) : Bool :=
  if handlers.isEmpty then
    match probe with
    | .responded ok => ok
    | .failed _ => false
  else
    (handlers.map handlerHealth).any (fun b => b)

/-! ### Helper lemmas -/

/-- The streaming handler resolves `true` on every outcome. -/
theorem handleStreamingRequest_snd (o : StreamOutcome) : (handleStreamingRequest o).2 = true := by
  cases o <;> rfl

/-- The buffered handler resolves `true` on every outcome. -/
theorem handleNonStreamingRequest_snd (o : FetchOutcome) :
    (handleNonStreamingRequest o).2 = true := by
  cases o <;> rfl

/-- A handler's wrapped health result is `true` exactly for a resolved `true`. -/
theorem handlerHealth_eq_true (h : HealthOutcome) :
    handlerHealth h = true ↔ h = .ok true := by
  cases h with
  | ok b => cases b <;> simp [handlerHealth]
  | thrown m => simp [handlerHealth]

/-- The mapped-and-aggregated handler results are `true` exactly when some
handler resolved `true`. -/
theorem anyHealth_iff (handlers : List HealthOutcome) :
    ((handlers.map handlerHealth).any fun b => b) = true ↔ HealthOutcome.ok true ∈ handlers := by
  induction handlers with
  | nil => simp
  | cons a l ih =>
      simp only [List.map_cons, List.any_cons, Bool.or_eq_true, ih, List.mem_cons]
      constructor
      · rintro (h | h)
        · exact Or.inl ((handlerHealth_eq_true a).mp h).symm
        · exact Or.inr h
      · rintro (h | h)
        · exact Or.inl ((handlerHealth_eq_true a).mpr h.symm)
        · exact Or.inr h

/-- When every item processes without a throw, the loop returns exactly the
per-item messages, in order, with the skipped items filtered out. -/
theorem processItems_eq_filterMap (items : List JVal)
    (h : ∀ i ∈ items, itemOk i = true) :
    processItems items = .ok (items.filterMap itemMessage) := by
  induction items with
  | nil => rfl
  | cons a l ih =>
      have ha : itemOk a = true := h a (by simp)
      have hl := ih (fun i hi => h i (by simp [hi]))
      cases hpa : processItem a with
      | error e => simp [itemOk, hpa] at ha
      | ok o =>
          cases o with
          | some m => simp [processItems, hpa, hl, itemMessage, List.filterMap_cons]
          | none => simp [processItems, hpa, hl, itemMessage, List.filterMap_cons]

/-! ### Claim theorems -/

/-- Claim C10: `normalizeContent` applied to the empty sequence returns the
empty string — the uniform-string-list rule applies vacuously to `[]`, so a
message whose content is an empty list is emitted with content `""` rather
than being passed through unchanged. -/
theorem normalize_empty_list : normalizeContent (.jarr []) = .ok (.jstr "") := rfl

/-- Claim C6: a sequence whose elements are all strings is joined by
`normalizeContent` with the literal two-character escape sequence
backslash-n (the source's `'\x5c\x5cn'` literal), not an actual newline byte. -/
theorem normalize_string_list_join (ss : List String) :
    normalizeContent (.jarr (ss.map JVal.jstr)) = .ok (.jstr (String.intercalate "\\n" ss)) := by
  have hall : ∀ tt : List String, (tt.map JVal.jstr).all isStringV = true := by
    intro tt
    induction tt with
    | nil => rfl
    | cons a l ih => simp only [List.map_cons, List.all_cons, isStringV, Bool.true_and, ih]
  have hmap : ∀ tt : List String, (tt.map JVal.jstr).map strOf = tt := by
    intro tt
    induction tt with
    | nil => rfl
    | cons a l ih => simp only [List.map_cons, strOf, ih]
  simp [normalizeContent, hall ss, hmap ss]

/-- Claim C7: on a buffered forward, a non-success upstream status `s` with
body text `t` is relayed to the caller verbatim as status `s` body `t`, and a
transport-level fetch failure with message `m` is answered with status 502 and
JSON body `{error: "Error forwarding request: " + m}`. -/
theorem buffered_error_relay :
    (∀ (s : Nat) (t : String),
        handleNonStreamingRequest (.httpError s t) = (.buffered ⟨s, .text t⟩, true)) ∧
    (∀ m : String,
        handleNonStreamingRequest (.networkError m) =
          (.buffered ⟨502, .json (.jobj [("error", .jstr ("Error forwarding request: " ++ m))])⟩,
           true)) :=
  ⟨fun _ _ => rfl, fun _ => rfl⟩

/-- Claim C8: with one or more registered handlers, `checkUpstreamHealth` is
true iff at least one handler's `checkHealth` resolved `true` (a thrown check
counts as unhealthy for that handler only); with zero handlers it is true iff
the single bare probe responded with a success status. -/
theorem health_any_quorum (handlers : List HealthOutcome) (probe : ProbeOutcome) :
    (handlers = [] →
        (checkUpstreamHealth handlers probe = true ↔ probe = .responded true)) ∧
    (handlers ≠ [] →
        (checkUpstreamHealth handlers probe = true ↔ HealthOutcome.ok true ∈ handlers)) := by
  constructor
  · intro he
    subst he
    cases probe with
    | responded ok => cases ok <;> simp [checkUpstreamHealth]
    | failed m => simp [checkUpstreamHealth]
  · intro hne
    have : handlers.isEmpty = false := by
      cases handlers with
      | nil => exact absurd rfl hne
      | cons a l => rfl
    simp only [checkUpstreamHealth, this, Bool.false_eq_true, if_false]
    exact anyHealth_iff handlers

/-- Claim C8 witness: the spec's two scenarios — zero handlers with a failing
probe give `false`; two handlers, one healthy and one throwing, give `true`. -/
theorem health_any_quorum_witness :
    checkUpstreamHealth [] (.failed "down") ≠ true ∧
    checkUpstreamHealth [.ok true, .thrown "boom"] (.failed "down") = true := by
  constructor
  · intro h
    have := ((health_any_quorum [] (.failed "down")).1 rfl).mp h
    exact ProbeOutcome.noConfusion this
  · exact ((health_any_quorum [.ok true, .thrown "boom"] (.failed "down")).2 (by simp)).mpr
      (by simp)

/-- Claim C9: `handle` resolves `true` on every path — buffered or streaming,
success, upstream rejection, transport failure, and internal exception — so a
matched request is never passed to the fallback proxy; and on the internal
exception path the caller gets the 500 `proxy_error` envelope. -/
theorem handle_resolves_true (r : InboundRequest) (env : FetchEnv) :
    (handle r env).2 = true ∧
    (∀ m, transformRequest r = .error m →
        (handle r env).1 = .buffered (proxyErrorEnvelope m)) := by
  constructor
  · cases ht : transformRequest r with
    | error e => simp [handle, ht]
    | ok b =>
        cases hs : optTruthy r.stream <;>
          simp [handle, ht, hs, handleStreamingRequest_snd, handleNonStreamingRequest_snd]
  · intro m hm
    simp [handle, hm]

/-- Claim C9 witness: a body whose `input` holds a `null` item makes the
transform throw, and `handle` still resolves `true` with the 500 envelope. -/
theorem handle_resolves_true_witness :
    (handle { input := some (.jarr [.jnull]) } ⟨.networkError "x", .noBody⟩).2 = true ∧
    (handle { input := some (.jarr [.jnull]) } ⟨.networkError "x", .noBody⟩).1 =
      .buffered (proxyErrorEnvelope "Cannot read properties of null (reading role)") :=
  ⟨(handle_resolves_true _ _).1, (handle_resolves_true _ _).2 _ rfl⟩

/-- Claim C1 counterexample: a body whose `input` holds a `null` entry makes
`transformRequest` throw a `TypeError` when the loop reads `item.role` — the
transform is not total. -/
theorem transform_total_counterexample :
    transformRequest { input := some (.jarr [.jnull]) } =
      .error "Cannot read properties of null (reading role)" := rfl

/-- Claim C1 (amended): `transformRequest` returns an outbound request without
raising for every body whose input items each process without a throw: missing
fields, non-object bodies' fields and non-null malformed entries degrade
gracefully, but a `null` input item — or an item whose content list makes the
typed-block scan read a property of a `null` element — raises a `TypeError`. -/
theorem transform_no_throw (r : InboundRequest)
    (h : ∀ item ∈ inputItems r, itemOk item = true) :
    (transformRequest r).isOk = true := by
  have hp := processItems_eq_filterMap (inputItems r) h
  rw [transformRequest.eq_def, hp]
  rfl

/-- Claim C1 witness: a thoroughly malformed body with no throwing item is
transformed without an error. -/
theorem transform_no_throw_witness :
    (∀ item ∈ inputItems malformedSafeReq, itemOk item = true) ∧
    (transformRequest malformedSafeReq).isOk = true :=
  ⟨by decide, transform_no_throw malformedSafeReq (by decide)⟩

/-- Claim C2 counterexample: for the item
`{role: "user", content: "", text: "hi"}` the claimed formula keeps
`content ?? text = ""` (whose normalization is `""`), but the source's
`content || text` picks `"hi"`: the emitted message content differs from the
claimed one. -/
theorem input_loop_counterexample :
    transformRequest { input := some (.jarr [emptyContentItem]) } =
      .ok { model := none,
            messages := [⟨.jstr "user", .jstr "hi"⟩],
            temperature := .jnum ((7 : ℚ)/10),
            max_tokens := .jnum (-1),
            stream := .jbool false,
            tools := none,
            parallel_tool_calls := none } ∧
    specNullishChoice (some (.jstr "")) (some (.jstr "hi")) = some (.jstr "") ∧
    normalizeContent (.jstr "") = .ok (.jstr "") ∧
    JVal.jstr "hi" ≠ JVal.jstr "" :=
  ⟨rfl, rfl, rfl, by simp⟩

/-- Claim C2 (amended): for a sequence input whose items all process without a
throw, `transformRequest` appends — in original order, after any system
message — a message for exactly those items whose `role` is truthy and whose
`content || text` (the first truthy of the two) is truthy, with content
`normalize(item.content || item.text)`; items with a falsy `role` or with
falsy `content` and `text` are silently skipped. -/
theorem input_loop_messages (r : InboundRequest) (elems : List JVal) (t : OpenAIChatFormat)
    (fields : List (String × JVal))
    (h1 : r.input = some (.jarr elems))
    (h2 : ∀ item ∈ elems, itemOk item = true)
    (h3 : transformRequest r = .ok t) :
    t.messages = systemMessages r ++ elems.filterMap itemMessage ∧
    itemMessage (.jobj fields) =
      (match jlookup fields "role",
             (if optTruthy (jlookup fields "content") then jlookup fields "content"
              else jlookup fields "text") with
       | some rv, some cv =>
           if rv.truthy && cv.truthy then
             (normalizeContent cv).toOption.map (fun nc => ⟨rv, nc⟩)
           else none
       | some _, none => none
       | none, _ => none) := by
  constructor
  · have hin : inputItems r = elems := by simp [inputItems, h1]
    have hp := processItems_eq_filterMap elems h2
    rw [transformRequest.eq_def, hin, hp] at h3
    simp only [Except.ok.injEq] at h3
    rw [← h3]
  · simp only [itemMessage, processItem, jsGetField]
    cases hr : jlookup fields "role" with
    | none => rfl
    | some rv =>
        cases hc : (if optTruthy (jlookup fields "content") then jlookup fields "content"
                    else jlookup fields "text") with
        | none =>
            by_cases htr : rv.truthy
            · simp [htr]
            · simp [htr]
        | some cv =>
            by_cases htr : rv.truthy
            · by_cases htc : cv.truthy
              · cases hn : normalizeContent cv with
                | ok nc => simp [htr, htc, hn, Except.toOption]
                | error e => simp [htr, htc, hn, Except.toOption]
              · simp [htr, htc]
            · simp [htr]

/-- Claim C2 witness: the mixed item list keeps exactly its two role-carrying
items in order, and the orphan item contributes no message. -/
theorem input_loop_messages_witness :
    mixedItemsOut.messages = [⟨.jstr "user", .jstr "Hello!"⟩, ⟨.jstr "assistant", .jstr "Hi"⟩] ∧
    itemMessage (.jobj [("content", .jstr "orphan")]) = none := by
  have h := input_loop_messages mixedItemsReq
    [.jobj [("role", .jstr "user"), ("content", .jstr "Hello!")],
     .jobj [("content", .jstr "orphan")],
     .jobj [("role", .jstr "assistant"), ("text", .jstr "Hi")],
     .jstr "loose"]
    mixedItemsOut [("content", .jstr "orphan")] rfl (by decide) rfl
  exact ⟨h.1, h.2⟩

/-- Claim C3 counterexample: `instructions` set to the empty string is falsy,
so no system message is prepended and the first outbound message comes from
`input` instead. -/
theorem system_message_counterexample :
    transformRequest emptyInstructionsReq =
      .ok { model := none,
            messages := [⟨.jstr "user", .jstr "Hello!"⟩],
            temperature := .jnum ((7 : ℚ)/10),
            max_tokens := .jnum (-1),
            stream := .jbool false,
            tools := none,
            parallel_tool_calls := none } ∧
    ChatMessage.mk (.jstr "user") (.jstr "Hello!") ≠ ⟨.jstr "system", .jstr ""⟩ :=
  ⟨rfl, by simp⟩

/-- Claim C3 (amended): for every request whose `instructions` is present with
a truthy value (in particular any non-empty string), the first outbound
message is exactly `{role: "system", content: instructions}` and the remaining
messages are exactly those derived from `input`. -/
theorem system_message_first (r : InboundRequest) (v : JVal) (t : OpenAIChatFormat)
    (h1 : r.instructions = some v) (h2 : v.truthy = true)
    (h3 : transformRequest r = .ok t) :
    t.messages.head? = some ⟨.jstr "system", v⟩ ∧
    processItems (inputItems r) = .ok t.messages.tail := by
  cases hp : processItems (inputItems r) with
  | error e => rw [transformRequest.eq_def, hp] at h3; exact Except.noConfusion h3
  | ok msgs =>
      rw [transformRequest.eq_def, hp] at h3
      simp only [Except.ok.injEq] at h3
      rw [← h3]
      simp [systemMessages, h1, h2]

/-- Claim C3 witness: the spec's own scenario request, whose transform starts
with the system message followed by the user message. -/
theorem system_message_first_witness :
    helpfulOut.messages.head? = some ⟨.jstr "system", .jstr "You are a helpful assistant."⟩ ∧
    processItems (inputItems helpfulReq) = .ok helpfulOut.messages.tail :=
  system_message_first helpfulReq (.jstr "You are a helpful assistant.") helpfulOut rfl rfl rfl

/-- Claim C4 counterexample: for `stream: 0` the claimed formula
`request.stream ?? false` keeps `0`, but the source's
`original.stream || false` replaces the falsy `0` with `false`. -/
theorem stream_default_counterexample :
    transformRequest { stream := some (.jnum 0) } =
      .ok { model := none,
            messages := [],
            temperature := .jnum ((7 : ℚ)/10),
            max_tokens := .jnum (-1),
            stream := .jbool false,
            tools := none,
            parallel_tool_calls := none } ∧
    specNullishChoice (some (.jnum 0)) (some (.jbool false)) = some (.jnum 0) ∧
    JVal.jbool false ≠ JVal.jnum 0 :=
  ⟨rfl, rfl, by simp⟩

/-- Claim C4 (amended): `transformRequest` defaults `temperature` to `0.7` and
`max_tokens` to `-1`, overridden by any present inbound value (including falsy
ones such as `0`) via an explicit-presence check; `parallel_tool_calls` is
copied exactly when present; and `stream` is `original.stream || false` — the
inbound value when truthy, the boolean `false` otherwise (so a falsy
non-boolean `stream` such as `0` becomes `false`, not `0`). -/
theorem transform_defaults (r : InboundRequest) (t : OpenAIChatFormat)
    (h : transformRequest r = .ok t) :
    t.temperature = r.temperature.getD (.jnum ((7 : ℚ)/10)) ∧
    t.max_tokens = r.max_tokens.getD (.jnum (-1)) ∧
    t.parallel_tool_calls = r.parallel_tool_calls ∧
    t.stream = jsOrD r.stream (.jbool false) := by
  cases hp : processItems (inputItems r) with
  | error e => rw [transformRequest.eq_def, hp] at h; exact Except.noConfusion h
  | ok msgs =>
      rw [transformRequest.eq_def, hp] at h
      simp only [Except.ok.injEq] at h
      rw [← h]
      exact ⟨rfl, rfl, rfl, rfl⟩

/-- Claim C4 witness: a `temperature` of `0`, a `max_tokens` of `5` and a
`parallel_tool_calls` of `false` are all preserved, and a truthy string
`stream` is kept verbatim by `||`. -/
theorem transform_defaults_witness :
    zeroTempOut.temperature = .jnum 0 ∧
    zeroTempOut.max_tokens = .jnum 5 ∧
    zeroTempOut.parallel_tool_calls = some (.jbool false) ∧
    zeroTempOut.stream = .jstr "sse" := by
  have h := transform_defaults zeroTempReq zeroTempOut rfl
  exact ⟨h.1, h.2.1, h.2.2.1, h.2.2.2⟩

/-- Claim C5 counterexample: a uniform string list is neither a plain string
nor a uniform list of typed blocks, yet `normalizeContent` does not pass it
through unchanged — it joins it into a single string. -/
theorem normalizer_passthrough_counterexample :
    normalizeContent (.jarr [.jstr "a", .jstr "b"]) = .ok (.jstr "a\\nb") ∧
    JVal.jstr "a\\nb" ≠ JVal.jarr [.jstr "a", .jstr "b"] :=
  ⟨rfl, by simp⟩

/-- Claim C5 (amended): content that is neither a plain string, nor a
uniform list of strings, nor a list accepted by the typed-block scan is never
discarded: such a list is passed through unchanged (when its scan completes),
and a non-string non-list value is re-serialized as JSON text; but a list
whose typed-block scan reads a property of a `null` element raises a
`TypeError` instead of degrading. -/
theorem normalizer_passthrough (v : JVal) :
    (∀ elems, v = .jarr elems → elems.all isStringV = false →
        scanTypedBlocks elems = .ok false → normalizeContent v = .ok v) ∧
    ((∀ s, v ≠ .jstr s) → (∀ elems, v ≠ .jarr elems) →
        normalizeContent v = .ok (.jstr (jsonStringify v))) := by
  constructor
  · rintro elems rfl hall hscan
    simp [normalizeContent, hall, hscan]
  · intro hs ha
    cases v with
    | jnull => rfl
    | jbool b => rfl
    | jnum q => rfl
    | jstr s => exact absurd rfl (hs s)
    | jarr elems => exact absurd rfl (ha elems)
    | jobj fields => rfl

/-- Claim C5 witness: a mixed list passes through unchanged, and a boolean is
re-serialized as JSON text. -/
theorem normalizer_passthrough_witness :
    normalizeContent (.jarr [.jnum 1]) = .ok (.jarr [.jnum 1]) ∧
    normalizeContent (.jbool true) = .ok (.jstr "true") :=
  ⟨(normalizer_passthrough (.jarr [.jnum 1])).1 [.jnum 1] rfl rfl rfl,
   (normalizer_passthrough (.jbool true)).2 (fun _ h => JVal.noConfusion h)
     (fun _ h => JVal.noConfusion h)⟩

end OpenCodex
